import Mathlib

/-!
Verification of the option flight envelope core: a shallow embedding of the
envelope geometry evaluator (`FlightEnvelope.evaluate_state`, `get_regime`),
the per-step telemetry assembly (`TelemetryEngine.compute_step`) and the
stochastic path generators (`PathGenerator.mean_revert_pin`,
`false_breakout`, `generate_vol_path`).

Modelling conventions:
- Python float arithmetic is embedded as exact rational arithmetic over `ℚ`.
- The shared random source (`random.normalvariate(0, σ)`) is modelled as an
  explicit stream `draws : ℕ → ℚ` of realized standard-normal draws; the
  call `normalvariate(0, σ)` at the `k`-th consumption point becomes
  `σ * draws k`.
- The Python built-in `round(x, n)` (round-half-to-even at `n` decimal digits) is
  embedded exactly over `ℚ` as `pyRound`.
- Python truthiness in `target_iv or start_iv` and
  `if shock_at and i == shock_at` is embedded explicitly (`None`/`0` falsy).
-/

set_option linter.unusedVariables false

namespace OptionFlight

/-- Configuration of the envelope (source: `envelope.py`, `EnvelopeConfig`). -/
structure EnvelopeConfig where
  atr : ℚ
  flip : ℚ
  put_wall : ℚ
  call_wall : ℚ
  risk_proxy_base : ℚ := 1
deriving DecidableEq

/-- Flight regime classification (source: `envelope.py`, `get_regime` results). -/
inductive Regime where
  | TAXI
  | CRUISE
  | MANEUVER
  | RUPTURE
deriving DecidableEq

/-- The dict returned by `FlightEnvelope.evaluate_state`. -/
structure EnvState where
  x : ℚ
  y : ℚ
  z : ℚ
  is_breached : Bool
  is_overspeed : Bool
  is_stall : Bool
deriving DecidableEq

namespace FlightEnvelope

/-- Source: `envelope.py`, `FlightEnvelope.evaluate_state`. -/
def evaluate_state (c : EnvelopeConfig) (spot iv hv : ℚ) : EnvState :=
  let atr := c.atr
  let flip := c.flip
  let airspeed := |spot - flip| / (if atr > 0 then atr else 1e-9)
  let load_factor := iv / (if hv > 0 then hv else 1e-9)
  let wall_dist := if spot ≥ flip then |c.call_wall - spot| else |c.put_wall - spot|
  let max_dist := if spot ≥ flip then |c.call_wall - flip| else |c.put_wall - flip|
  let wall_proximity := wall_dist / (if max_dist > 0 then max_dist else 1e-9)
  { x := airspeed
    y := load_factor
    z := wall_proximity
    is_breached := decide (spot > c.call_wall) || decide (spot < c.put_wall)
    is_overspeed := decide (airspeed > 3.0)
    is_stall := decide (airspeed < 0.2) }

/-- Source: `envelope.py`, `FlightEnvelope.get_regime`: ordered cascade. -/
def get_regime (x y : ℚ) : Regime :=
  if y > 2.5 ∨ x > 4.5 then Regime.RUPTURE
  else if x < 0.3 then Regime.TAXI
  else if y > 1.5 ∨ x > 2.5 then Regime.MANEUVER
  else Regime.CRUISE

end FlightEnvelope

/-- Round-half-to-even of a rational to an integer (the rounding mode of
the Python built-in `round`). -/
def halfEvenRound (q : ℚ) : ℤ :=
  if q - Int.floor q < 1/2 then Int.floor q
  else if q - Int.floor q > 1/2 then Int.floor q + 1
  else if Int.floor q % 2 = 0 then Int.floor q else Int.floor q + 1

/-- The Python `round(q, ndigits)` over exact rationals. -/
def pyRound (ndigits : ℕ) (q : ℚ) : ℚ :=
  (halfEvenRound (q * 10 ^ ndigits) : ℚ) / 10 ^ ndigits

/-- Warning flags emitted by `TelemetryEngine.compute_step`. -/
inductive Flag where
  | BREACH
  | OVERSPEED
  | STALL
deriving DecidableEq

/-- The dict returned by `TelemetryEngine.compute_step`. -/
structure TelemetryRecord where
  timestamp : ℤ
  spot : ℚ
  iv : ℚ
  hv : ℚ
  x : ℚ
  y : ℚ
  z : ℚ
  regime : Regime
  flags : List Flag
deriving DecidableEq

namespace TelemetryEngine

/-- Source: `telemetry.py`, `TelemetryEngine.compute_step`. -/
def compute_step (c : EnvelopeConfig) (spot iv hv : ℚ) (timestamp : ℤ) :
    TelemetryRecord :=
  let state := FlightEnvelope.evaluate_state c spot iv hv
  let regime := FlightEnvelope.get_regime state.x state.y
  let flags :=
    (if state.is_breached then [Flag.BREACH] else []) ++
    (if state.is_overspeed then [Flag.OVERSPEED] else []) ++
    (if state.is_stall then [Flag.STALL] else [])
  { timestamp := timestamp
    spot := pyRound 2 spot
    iv := pyRound 4 iv
    hv := pyRound 4 hv
    x := pyRound 3 state.x
    y := pyRound 3 state.y
    z := pyRound 3 state.z
    regime := regime
    flags := flags }

end TelemetryEngine

/-- Source: `dynamics.py`, `PathGenerator.__init__`. -/
structure PathGenerator where
  start_spot : ℚ
  atr : ℚ
  steps : ℕ

namespace PathGenerator

/-- One mean-reversion update `v ← v + (attractor − v)·intensity + σ·draw`
(the loop body shared by `mean_revert_pin` and both `false_breakout` phases). -/
def revStep (attractor intensity sigma drawv v : ℚ) : ℚ :=
  v + (attractor - v) * intensity + sigma * drawv

/-- A run of `n` mean-reversion updates starting from `v`, consuming draws
`k, k+1, …`; returns the list of appended values together with the final
running value (the loop of `mean_revert_pin` / `false_breakout`). -/
def revRun (attractor intensity sigma : ℚ) (draws : ℕ → ℚ) :
    ℕ → ℕ → ℚ → List ℚ × ℚ
  | 0, _, v => ([], v)
  | n + 1, k, v =>
      let v2 := revStep attractor intensity sigma (draws k) v
      let r := revRun attractor intensity sigma draws n (k + 1) v2
      (v2 :: r.1, r.2)

/-- Source: `dynamics.py`, `PathGenerator.mean_revert_pin`. -/
def mean_revert_pin (g : PathGenerator) (target intensity noise : ℚ)
    (draws : ℕ → ℚ) : List ℚ :=
  g.start_spot ::
    (revRun target intensity (g.atr * noise) draws (g.steps - 1) 0 g.start_spot).1

/-- Source: `dynamics.py`, `PathGenerator.false_breakout`. The
`overshoot_target` local is computed, as in the source, but never read. -/
def false_breakout (g : PathGenerator) (target_wall breach_depth recovery : ℚ)
    (draws : ℕ → ℚ) : List ℚ :=
  let half := g.steps / 2
  let p1 := revRun target_wall 0.1 (g.atr * 0.1) draws half 0 g.start_spot
  let overshoot_target := target_wall + (target_wall - g.start_spot) * breach_depth
  let p2 := revRun g.start_spot recovery (g.atr * 0.2) draws (g.steps - half) half p1.2
  p1.1 ++ p2.1

/-- Truthiness test `shock_at and i == shock_at` of the shock guard in the source. -/
def shockCond (shock_at : Option ℕ) (i : ℕ) : Bool :=
  match shock_at with
  | none => false
  | some s => decide (s ≠ 0) && (i == s)

/-- The loop of `generate_vol_path`: the running `iv` is NOT floored (only the
appended copy is), exactly as in the source. -/
def gvpRun (target sigma : ℚ) (shock_at : Option ℕ) (draws : ℕ → ℚ) :
    ℕ → ℕ → ℚ → List ℚ
  | 0, _, _ => []
  | n + 1, i, iv =>
      let ivs := if shockCond shock_at i then iv * 1.5 else iv
      let iv2 := ivs + (target - ivs) * 0.05 + sigma * draws i
      max 0.01 iv2 :: gvpRun target sigma shock_at draws n (i + 1) iv2

/-- Source: `dynamics.py`, `PathGenerator.generate_vol_path`; the Python
`target_iv or start_iv` makes both `None` and `0.0` fall back to `start_iv`. -/
def generate_vol_path (g : PathGenerator) (start_iv : ℚ) (target_iv : Option ℚ)
    (shock_at : Option ℕ) (draws : ℕ → ℚ) : List ℚ :=
  let target :=
    match target_iv with
    | none => start_iv
    | some t => if t = 0 then start_iv else t
  start_iv :: gvpRun target (start_iv * 0.05) shock_at draws (g.steps - 1) 0 start_iv

end PathGenerator

/-! ### Helper lemmas about the recurrence runs -/

namespace PathGenerator

theorem revRun_length (a i s : ℚ) (d : ℕ → ℚ) (n : ℕ) :
    ∀ (k : ℕ) (v : ℚ), ((revRun a i s d n k v).1).length = n := by
  induction n with
  | zero => intro k v; rfl
  | succ m ih =>
      intro k v
      simpa [revRun] using ih (k + 1) (revStep a i s (d k) v)

theorem revRun_get_zero (a i s : ℚ) (d : ℕ → ℚ) (n k : ℕ) (v : ℚ) (h : 0 < n) :
    ((revRun a i s d n k v).1)[0]? = some (revStep a i s (d k) v) := by
  cases n with
  | zero => exact absurd h (by omega)
  | succ m => simp [revRun]

theorem revRun_get_succ (a i s : ℚ) (d : ℕ → ℚ) (n : ℕ) :
    ∀ (k : ℕ) (v : ℚ) (j : ℕ), j + 1 < n →
      ((revRun a i s d n k v).1)[j + 1]? =
        Option.map (revStep a i s (d (k + j + 1))) (((revRun a i s d n k v).1)[j]?) := by
  induction n with
  | zero => intro k v j h; exact absurd h (by omega)
  | succ m ih =>
      intro k v j h
      cases j with
      | zero =>
          have hm : 0 < m := by omega
          simp [revRun, revRun_get_zero a i s d m (k + 1) _ hm, revStep]
      | succ j' =>
          have h' : j' + 1 < m := by omega
          have harith : k + (j' + 1) + 1 = (k + 1) + j' + 1 := by omega
          simpa [revRun, harith] using
            ih (k + 1) (revStep a i s (d k) v) j' h'

theorem revRun_get_last (a i s : ℚ) (d : ℕ → ℚ) (n : ℕ) :
    ∀ (k : ℕ) (v : ℚ), 0 < n →
      ((revRun a i s d n k v).1)[n - 1]? = some ((revRun a i s d n k v).2) := by
  induction n with
  | zero => intro k v h; exact absurd h (by omega)
  | succ m ih =>
      intro k v _
      cases m with
      | zero => rfl
      | succ m' =>
          have := ih (k + 1) (revStep a i s (d k) v) (by omega)
          simpa [revRun] using this

theorem gvpRun_ge (t s : ℚ) (sh : Option ℕ) (d : ℕ → ℚ) (n : ℕ) :
    ∀ (k : ℕ) (iv : ℚ) (i : ℕ) (x : ℚ),
      (gvpRun t s sh d n k iv)[i]? = some x → (0.01 : ℚ) ≤ x := by
  induction n with
  | zero => intro k iv i x hx; simp [gvpRun] at hx
  | succ m ih =>
      intro k iv i x hx
      cases i with
      | zero =>
          simp only [gvpRun, List.getElem?_cons_zero, Option.some.injEq] at hx
          subst hx
          exact le_max_left _ _
      | succ i' =>
          simp only [gvpRun, List.getElem?_cons_succ] at hx
          exact ih (k + 1) _ i' x hx

theorem gvpRun_shock_zero (t s : ℚ) (d : ℕ → ℚ) (n : ℕ) :
    ∀ (k : ℕ) (iv : ℚ),
      gvpRun t s (some 0) d n k iv = gvpRun t s none d n k iv := by
  induction n with
  | zero => intro k iv; rfl
  | succ m ih =>
      intro k iv
      simp [gvpRun, shockCond, ih]

theorem gvpRun_shock_late (t s : ℚ) (d : ℕ → ℚ) (sidx : ℕ) (n : ℕ) :
    ∀ (k : ℕ) (iv : ℚ), k + n ≤ sidx →
      gvpRun t s (some sidx) d n k iv = gvpRun t s none d n k iv := by
  induction n with
  | zero => intro k iv _; rfl
  | succ m ih =>
      intro k iv h
      have hk : (k == sidx) = false := by
        have : k ≠ sidx := by omega
        simpa using this
      simp [gvpRun, shockCond, hk, ih (k + 1) _ (by omega)]

end PathGenerator

/-! ### Claim theorems -/

/-- C1 counterexample: in the concrete scenario (volatility unit 2.8, pivot
692.5, walls 680/700, spot 692.5, implied vol 0.15, historical vol 0.12) the
record does have x = 0, y = 1.25 and regime TAXI, but its flags list is NOT
empty: x = 0 < 0.2 raises the stall flag. -/
theorem c1_scenario_counterexample :
    (TelemetryEngine.compute_step
        { atr := 2.8, flip := 692.5, put_wall := 680.0, call_wall := 700.0 }
        692.5 0.15 0.12 0).x = 0 ∧
    (TelemetryEngine.compute_step
        { atr := 2.8, flip := 692.5, put_wall := 680.0, call_wall := 700.0 }
        692.5 0.15 0.12 0).y = 1.25 ∧
    (TelemetryEngine.compute_step
        { atr := 2.8, flip := 692.5, put_wall := 680.0, call_wall := 700.0 }
        692.5 0.15 0.12 0).regime = Regime.TAXI ∧
    (TelemetryEngine.compute_step
        { atr := 2.8, flip := 692.5, put_wall := 680.0, call_wall := 700.0 }
        692.5 0.15 0.12 0).flags ≠ [] := by
  have h :
      TelemetryEngine.compute_step
        { atr := 2.8, flip := 692.5, put_wall := 680.0, call_wall := 700.0 }
        692.5 0.15 0.12 0 =
      { timestamp := 0, spot := 692.5, iv := 0.15, hv := 0.12, x := 0, y := 1.25,
        z := 1, regime := Regime.TAXI, flags := [Flag.STALL] } := by
    simp only [TelemetryEngine.compute_step, FlightEnvelope.evaluate_state,
      FlightEnvelope.get_regime, pyRound, halfEvenRound]
    norm_num [Int.floor_eq_iff]
  rw [h]
  refine ⟨rfl, rfl, rfl, by simp⟩

/-- C1 amended: in the concrete scenario the record is exactly
timestamp 0, spot 692.5, implied vol 0.15, historical vol 0.12, x = 0,
y = 1.25, z = 1, regime TAXI, and flags [STALL] (the stall flag fires because
x = 0 < 0.2). -/
theorem c1_scenario_record :
    TelemetryEngine.compute_step
        { atr := 2.8, flip := 692.5, put_wall := 680.0, call_wall := 700.0 }
        692.5 0.15 0.12 0 =
      { timestamp := 0, spot := 692.5, iv := 0.15, hv := 0.12, x := 0, y := 1.25,
        z := 1, regime := Regime.TAXI, flags := [Flag.STALL] } := by
  simp only [TelemetryEngine.compute_step, FlightEnvelope.evaluate_state,
    FlightEnvelope.get_regime, pyRound, halfEvenRound]
  norm_num [Int.floor_eq_iff]

/-- C2 counterexample: `generate_vol_path` emits its first element unfloored:
with start value 0.005 the first element of the path is 0.005 < 0.01. -/
theorem c2_first_element_counterexample :
    (PathGenerator.generate_vol_path ⟨1, 1, 3⟩ 0.005 none none
        (fun _ => 0)).head? = some 0.005 ∧
    (0.005 : ℚ) < 0.01 := by
  exact ⟨rfl, by norm_num⟩

/-- C2 amended: for every generator, start value, target, shock index and
draw stream, every element of `generate_vol_path` AFTER the first is at least
0.01; the first element equals the start value exactly (and is below 0.01
precisely when the start value is). -/
theorem c2_tail_floor (g : PathGenerator) (start_iv : ℚ) (target_iv : Option ℚ)
    (shock_at : Option ℕ) (draws : ℕ → ℚ) :
    (PathGenerator.generate_vol_path g start_iv target_iv shock_at
        draws).head? = some start_iv ∧
    ∀ (i : ℕ) (x : ℚ),
      (PathGenerator.generate_vol_path g start_iv target_iv shock_at
          draws)[i + 1]? = some x →
      (0.01 : ℚ) ≤ x := by
  refine ⟨rfl, ?_⟩
  intro i x hx
  simp only [PathGenerator.generate_vol_path, List.getElem?_cons_succ] at hx
  exact PathGenerator.gvpRun_ge _ _ _ _ _ _ _ i x hx

/-- Witness for C2 amended at a concrete input. -/
theorem c2_tail_floor_witness :
    (0.01 : ℚ) ≤ max 0.01 (0.005 + (0.005 - 0.005) * 0.05 + 0.005 * 0.05 * 0) :=
  (c2_tail_floor ⟨1, 1, 2⟩ 0.005 none none (fun _ => 0)).2 0 _ rfl

/-- C3 counterexample: with volatility unit 1e-10 (positive but below ε) the
code divides by the unit itself, not by max(unit, ε): x = 1e10, while the
claimed formula gives 1e9. -/
theorem c3_small_unit_counterexample :
    (FlightEnvelope.evaluate_state
        { atr := 1e-10, flip := 0, put_wall := -1, call_wall := 1 } 1 1 1).x ≠
      |(1 : ℚ) - 0| / max (1e-10 : ℚ) 1e-9 := by
  have hmax : max (1e-10 : ℚ) 1e-9 = 1e-9 := max_eq_right (by norm_num)
  simp only [FlightEnvelope.evaluate_state, hmax]
  norm_num

/-- C3 amended: the denominators are the conditional guards of the code —
`volatility_unit` when it is positive, else ε, and `historical_vol` when it is
positive, else ε; these agree with the max(·, ε) form of the spec whenever the
guarded quantity is not strictly between 0 and ε. -/
theorem c3_denominators (c : EnvelopeConfig) (spot iv hv : ℚ) :
    (FlightEnvelope.evaluate_state c spot iv hv).x =
        |spot - c.flip| / (if c.atr > 0 then c.atr else 1e-9) ∧
    (FlightEnvelope.evaluate_state c spot iv hv).y =
        iv / (if hv > 0 then hv else 1e-9) ∧
    ((1e-9 : ℚ) ≤ c.atr ∨ c.atr ≤ 0 →
      (FlightEnvelope.evaluate_state c spot iv hv).x =
        |spot - c.flip| / max c.atr 1e-9) ∧
    ((1e-9 : ℚ) ≤ hv ∨ hv ≤ 0 →
      (FlightEnvelope.evaluate_state c spot iv hv).y = iv / max hv 1e-9) := by
  refine ⟨rfl, rfl, ?_, ?_⟩
  · rintro (h | h)
    · have hpos : c.atr > 0 := lt_of_lt_of_le (by norm_num) h
      show |spot - c.flip| / (if c.atr > 0 then c.atr else 1e-9) = _
      rw [if_pos hpos, max_eq_left h]
    · have hneg : ¬ c.atr > 0 := not_lt.mpr h
      show |spot - c.flip| / (if c.atr > 0 then c.atr else 1e-9) = _
      rw [if_neg hneg, max_eq_right (h.trans (by norm_num))]
  · rintro (h | h)
    · have hpos : hv > 0 := lt_of_lt_of_le (by norm_num) h
      show iv / (if hv > 0 then hv else 1e-9) = _
      rw [if_pos hpos, max_eq_left h]
    · have hneg : ¬ hv > 0 := not_lt.mpr h
      show iv / (if hv > 0 then hv else 1e-9) = _
      rw [if_neg hneg, max_eq_right (h.trans (by norm_num))]

/-- Witness for C3 amended at a concrete input with unit 2.8 ≥ ε. -/
theorem c3_denominators_witness :
    (FlightEnvelope.evaluate_state
        { atr := 2.8, flip := 0, put_wall := -1, call_wall := 1 } 5 3 2).x =
      |(5 : ℚ) - 0| / max 2.8 1e-9 :=
  (c3_denominators { atr := 2.8, flip := 0, put_wall := -1, call_wall := 1 }
    5 3 2).2.2.1 (Or.inl (by norm_num))

/-- C4: `get_regime` is a first-true-wins cascade: every point with
y > 2.5 or x > 4.5 is RUPTURE regardless of the later clauses; in particular
(5, 5) — which also satisfies the MANEUVER predicate — is RUPTURE. -/
theorem c4_rupture_first :
    (∀ x y : ℚ, y > 2.5 ∨ x > 4.5 →
      FlightEnvelope.get_regime x y = Regime.RUPTURE) ∧
    FlightEnvelope.get_regime 5 5 = Regime.RUPTURE ∧
    ((5 : ℚ) > 1.5 ∨ (5 : ℚ) > 2.5) := by
  refine ⟨?_, ?_, by norm_num⟩
  · intro x y h
    unfold FlightEnvelope.get_regime
    rw [if_pos h]
  · unfold FlightEnvelope.get_regime
    rw [if_pos (by norm_num : (5 : ℚ) > 2.5 ∨ (5 : ℚ) > 4.5)]

/-- Witness for C4 at a concrete point in the RUPTURE region. -/
theorem c4_rupture_first_witness :
    FlightEnvelope.get_regime 0 3 = Regime.RUPTURE :=
  c4_rupture_first.1 0 3 (Or.inl (by norm_num))

/-- C5: for step_count ≥ 1, `mean_revert_pin` returns exactly step_count
elements, the first of which is the start value exactly (no noise on the
seed element). -/
theorem c5_mean_revert_pin (g : PathGenerator) (target intensity noise : ℚ)
    (draws : ℕ → ℚ) (h : 1 ≤ g.steps) :
    (PathGenerator.mean_revert_pin g target intensity noise draws).length =
        g.steps ∧
    (PathGenerator.mean_revert_pin g target intensity noise draws).head? =
        some g.start_spot := by
  refine ⟨?_, rfl⟩
  simp [PathGenerator.mean_revert_pin, PathGenerator.revRun_length]
  omega

/-- Witness for C5 at a concrete generator with 5 steps. -/
theorem c5_mean_revert_pin_witness :
    (PathGenerator.mean_revert_pin ⟨7, 2, 5⟩ 9 0.1 0.2 (fun _ => 0)).length = 5 ∧
    (PathGenerator.mean_revert_pin ⟨7, 2, 5⟩ 9 0.1 0.2
        (fun _ => 0)).head? = some 7 :=
  c5_mean_revert_pin ⟨7, 2, 5⟩ 9 0.1 0.2 (fun _ => 0) (by decide)

/-- C6: `false_breakout` returns step_count elements (step_count / 2 from
phase 1, the rest from phase 2, no duplicated seed element: for
step_count ≥ 2 the first element is already one reversion step past the
start); the output does not depend on breach_depth (the overshoot target is
never used); and in the phase-2 region each element follows the previous one
by a mean-reversion step toward the ORIGINAL start value with intensity
recovery. -/
theorem c6_false_breakout (g : PathGenerator)
    (target_wall breach_depth breach_depth2 recovery : ℚ) (draws : ℕ → ℚ)
    (h : 1 ≤ g.steps) :
    (PathGenerator.false_breakout g target_wall breach_depth recovery
        draws).length = g.steps ∧
    PathGenerator.false_breakout g target_wall breach_depth recovery draws =
      PathGenerator.false_breakout g target_wall breach_depth2 recovery draws ∧
    (2 ≤ g.steps →
      (PathGenerator.false_breakout g target_wall breach_depth recovery
          draws)[0]? =
        some (PathGenerator.revStep target_wall 0.1 (g.atr * 0.1) (draws 0)
          g.start_spot)) ∧
    (∀ j : ℕ, g.steps / 2 ≤ j + 1 → j + 1 < g.steps →
      (PathGenerator.false_breakout g target_wall breach_depth recovery
          draws)[j + 1]? =
        Option.map
          (PathGenerator.revStep g.start_spot recovery (g.atr * 0.2)
            (draws (j + 1)))
          ((PathGenerator.false_breakout g target_wall breach_depth recovery
              draws)[j]?)) := by
  have hfb :
      PathGenerator.false_breakout g target_wall breach_depth recovery draws =
        (PathGenerator.revRun target_wall 0.1 (g.atr * 0.1) draws
            (g.steps / 2) 0 g.start_spot).1 ++
        (PathGenerator.revRun g.start_spot recovery (g.atr * 0.2) draws
            (g.steps - g.steps / 2) (g.steps / 2)
            (PathGenerator.revRun target_wall 0.1 (g.atr * 0.1) draws
              (g.steps / 2) 0 g.start_spot).2).1 := rfl
  have hlen1 :
      (PathGenerator.revRun target_wall 0.1 (g.atr * 0.1) draws
          (g.steps / 2) 0 g.start_spot).1.length = g.steps / 2 :=
    PathGenerator.revRun_length _ _ _ _ _ _ _
  refine ⟨?_, rfl, ?_, ?_⟩
  · rw [hfb, List.length_append, hlen1, PathGenerator.revRun_length]
    omega
  · intro h2
    have hhalf : 0 < g.steps / 2 := by omega
    rw [hfb, List.getElem?_append_left (by rw [hlen1]; exact hhalf)]
    exact PathGenerator.revRun_get_zero _ _ _ _ _ _ _ hhalf
  · intro j hj1 hj2
    rw [hfb]
    rcases Nat.lt_or_ge j (g.steps / 2) with hcase | hcase
    · -- boundary: position j + 1 is the first phase-2 element
      have hjhalf : j + 1 = g.steps / 2 := by omega
      have h0 : 0 < g.steps / 2 := by omega
      rw [List.getElem?_append_right (by rw [hlen1]; omega),
        List.getElem?_append_left (by rw [hlen1]; omega), hlen1,
        show j + 1 - g.steps / 2 = 0 by omega,
        PathGenerator.revRun_get_zero _ _ _ _ _ _ _
          (by omega : 0 < g.steps - g.steps / 2),
        show j = g.steps / 2 - 1 by omega,
        PathGenerator.revRun_get_last _ _ _ _ _ _ _ h0]
      simp [show g.steps / 2 - 1 + 1 = g.steps / 2 from by omega]
    · -- both positions lie in phase 2
      rw [List.getElem?_append_right (by rw [hlen1]; omega),
        List.getElem?_append_right (by rw [hlen1]; omega), hlen1,
        show j + 1 - g.steps / 2 = (j - g.steps / 2) + 1 by omega,
        PathGenerator.revRun_get_succ _ _ _ _ _ _ _ _
          (by omega : (j - g.steps / 2) + 1 < g.steps - g.steps / 2),
        show g.steps / 2 + (j - g.steps / 2) + 1 = j + 1 by omega]

/-- Witness for C6 at a concrete generator with 4 steps. -/
theorem c6_false_breakout_witness :
    (PathGenerator.false_breakout ⟨100, 1, 4⟩ 110 1.5 0.8
        (fun _ => 0)).length = 4 :=
  (c6_false_breakout ⟨100, 1, 4⟩ 110 1.5 2 0.8 (fun _ => 0) (by decide)).1

/-- C7: `evaluate_state` is total on every configuration: each of the three
divisions has a positive denominator (the conditional ε-guards), and the
returned x and z coordinates are nonnegative. -/
theorem c7_total_nonneg (c : EnvelopeConfig) (spot iv hv : ℚ) :
    (∃ d : ℚ, 0 < d ∧
      (FlightEnvelope.evaluate_state c spot iv hv).x = |spot - c.flip| / d) ∧
    (∃ d : ℚ, 0 < d ∧ (FlightEnvelope.evaluate_state c spot iv hv).y = iv / d) ∧
    (∃ d : ℚ, 0 < d ∧
      (FlightEnvelope.evaluate_state c spot iv hv).z =
        (if spot ≥ c.flip then |c.call_wall - spot| else |c.put_wall - spot|) /
          d) ∧
    0 ≤ (FlightEnvelope.evaluate_state c spot iv hv).x ∧
    0 ≤ (FlightEnvelope.evaluate_state c spot iv hv).z := by
  have hpos : ∀ q : ℚ, 0 < (if q > 0 then q else (1e-9 : ℚ)) := by
    intro q
    split
    · assumption
    · norm_num
  refine ⟨⟨_, hpos c.atr, rfl⟩, ⟨_, hpos hv, rfl⟩,
    ⟨_, hpos (if spot ≥ c.flip then |c.call_wall - c.flip|
      else |c.put_wall - c.flip|), rfl⟩, ?_, ?_⟩
  · show 0 ≤ |spot - c.flip| / (if c.atr > 0 then c.atr else (1e-9 : ℚ))
    exact div_nonneg (abs_nonneg _) (hpos c.atr).le
  · show 0 ≤
      (if spot ≥ c.flip then |c.call_wall - spot| else |c.put_wall - spot|) /
        (if (if spot ≥ c.flip then |c.call_wall - c.flip|
            else |c.put_wall - c.flip|) > 0 then
          (if spot ≥ c.flip then |c.call_wall - c.flip|
            else |c.put_wall - c.flip|)
        else (1e-9 : ℚ))
    refine div_nonneg ?_ (hpos _).le
    split <;> exact abs_nonneg _

/-- C8: `compute_step` assembles the flags in the fixed order BREACH,
OVERSPEED, STALL (each present exactly when its boolean holds, so the list is
always a sublist of [BREACH, OVERSPEED, STALL]) and rounds spot to 2,
implied/historical vol to 4, and x, y, z to 3 decimal places. -/
theorem c8_flags_order_rounding (c : EnvelopeConfig) (spot iv hv : ℚ)
    (timestamp : ℤ) :
    (TelemetryEngine.compute_step c spot iv hv timestamp).flags.Sublist
        [Flag.BREACH, Flag.OVERSPEED, Flag.STALL] ∧
    (Flag.BREACH ∈ (TelemetryEngine.compute_step c spot iv hv timestamp).flags ↔
      (FlightEnvelope.evaluate_state c spot iv hv).is_breached = true) ∧
    (Flag.OVERSPEED ∈
        (TelemetryEngine.compute_step c spot iv hv timestamp).flags ↔
      (FlightEnvelope.evaluate_state c spot iv hv).is_overspeed = true) ∧
    (Flag.STALL ∈ (TelemetryEngine.compute_step c spot iv hv timestamp).flags ↔
      (FlightEnvelope.evaluate_state c spot iv hv).is_stall = true) ∧
    (TelemetryEngine.compute_step c spot iv hv timestamp).spot =
        pyRound 2 spot ∧
    (TelemetryEngine.compute_step c spot iv hv timestamp).iv = pyRound 4 iv ∧
    (TelemetryEngine.compute_step c spot iv hv timestamp).hv = pyRound 4 hv ∧
    (TelemetryEngine.compute_step c spot iv hv timestamp).x =
        pyRound 3 (FlightEnvelope.evaluate_state c spot iv hv).x ∧
    (TelemetryEngine.compute_step c spot iv hv timestamp).y =
        pyRound 3 (FlightEnvelope.evaluate_state c spot iv hv).y ∧
    (TelemetryEngine.compute_step c spot iv hv timestamp).z =
        pyRound 3 (FlightEnvelope.evaluate_state c spot iv hv).z := by
  cases hb : (FlightEnvelope.evaluate_state c spot iv hv).is_breached <;>
    cases ho : (FlightEnvelope.evaluate_state c spot iv hv).is_overspeed <;>
      cases hs : (FlightEnvelope.evaluate_state c spot iv hv).is_stall <;>
        refine ⟨?_, ?_, ?_, ?_, rfl, rfl, rfl, rfl, rfl, rfl⟩ <;>
          simp [TelemetryEngine.compute_step, hb, ho, hs]

/-- C9: the shock multiplication is guarded by Python truthiness, so a shock
index of 0 is never applied (the output equals the no-shock output on the
same draws), and any shock index past step_count − 2 is outside the loop
range and equally has no effect. -/
theorem c9_shock_guard (g : PathGenerator) (start_iv : ℚ)
    (target_iv : Option ℚ) (draws : ℕ → ℚ) :
    PathGenerator.generate_vol_path g start_iv target_iv (some 0) draws =
      PathGenerator.generate_vol_path g start_iv target_iv none draws ∧
    ∀ sidx : ℕ, g.steps - 1 ≤ sidx →
      PathGenerator.generate_vol_path g start_iv target_iv (some sidx) draws =
        PathGenerator.generate_vol_path g start_iv target_iv none draws := by
  constructor
  · simp only [PathGenerator.generate_vol_path]
    exact congrArg _ (PathGenerator.gvpRun_shock_zero _ _ _ _ _ _)
  · intro sidx hs
    simp only [PathGenerator.generate_vol_path]
    exact congrArg _
      (PathGenerator.gvpRun_shock_late _ _ _ sidx _ 0 start_iv (by omega))

/-- Witness for C9 at a concrete path of 3 steps and shock index 9. -/
theorem c9_shock_guard_witness :
    PathGenerator.generate_vol_path ⟨1, 1, 3⟩ 0.2 none (some 9) (fun _ => 0) =
      PathGenerator.generate_vol_path ⟨1, 1, 3⟩ 0.2 none none (fun _ => 0) :=
  (c9_shock_guard ⟨1, 1, 3⟩ 0.2 none (fun _ => 0)).2 9 (by decide)

/-- C10: an explicit target of exactly 0 is falsy in Python, so the drift
target silently falls back to the start value: the output equals the output
for target None on the same draws. -/
theorem c10_zero_target (g : PathGenerator) (start_iv : ℚ)
    (shock_at : Option ℕ) (draws : ℕ → ℚ) :
    PathGenerator.generate_vol_path g start_iv (some 0) shock_at draws =
      PathGenerator.generate_vol_path g start_iv none shock_at draws := by
  simp [PathGenerator.generate_vol_path]

end OptionFlight
